import Mathlib

/-!
Verification of the Gravity bridge specification against the repository
source (`src/module/app/app.go`).

The file under `src/` concatenates two artifacts:
* the Cosmos SDK application wiring (Go), which contains the module-account
  permission table `maccPerms`, the allow-list `allowedReceivingModAcc`, and
  the derived `BlockedAddrs` map;
* the Hardhat test suite `submitLogicCall tests` (TypeScript) exercising the
  external Gravity contract's `submitLogicCall` entry point.

The external Gravity contract itself (threshold verifier, checkpoint codec,
logic-call replay protection) is not part of the sources; only its tests and
the specification describe it.  Definitions for that part are therefore
modelled from the spec (each such definition says so in its doc comment),
pinned wherever possible by the concrete behaviour the test suite demands.
-/

namespace GravityBridge

/-! ## Module accounts (Go application, `app.go` lines 141-157 and 761-770) -/

/-- The keys of the `maccPerms` module-account permission table
(`app.go` lines 143-152): fee collector, distribution, mint, bonded pool,
not-bonded pool, governance, IBC transfer, gravity. -/
def maccPermsNames : List String :=
  ["fee_collector", "distribution", "mint", "bonded_tokens_pool",
   "not_bonded_tokens_pool", "gov", "transfer", "gravity"]

/-- `allowedReceivingModAcc` (`app.go` lines 155-157): module accounts that
are allowed to receive tokens.  Only the distribution module account. -/
def allowedReceivingModAcc : List String :=
  ["distribution"]

/-- `Gravity.BlockedAddrs` (`app.go` lines 763-770): for every module account
in `maccPerms`, blocked is the negation of membership in
`allowedReceivingModAcc`.  `authtypes.NewModuleAddress(acc).String()` is an
injective derivation of an address from the account name; it is modelled by
the name itself. -/
def blockedAddrs : List (String × Bool) :=
  maccPermsNames.map (fun acc => (acc, ! allowedReceivingModAcc.contains acc))

/-! ## External Gravity contract: data model

Modelled from the spec (sections 3, 4.1, 4.2, 4.6) and the behaviour pinned
by the test suite in `app.go` lines 890-1308; the Solidity sources are not
in the repository excerpt. -/

/-- An ECDSA signature as submitted to the contract: recovery component `v`
and the two scalars `r`, `s`.  The cryptographic content is abstracted:
verification is parameterised by a recovery function. -/
structure Signature where
  v : Nat
  r : Nat
  s : Nat
deriving DecidableEq

/-- Modelled from the spec: the designated "absent" sentinel.  A signature
whose recovery component `v` is zero marks deliberate non-participation
(spec section 8: "setting a signature's recovery component to the designated
sentinel removes that validator's power"; the test `allows zeroed sig` zeroes
only `v`, leaving `r` and `s` populated, and expects the position skipped). -/
def Signature.isAbsent (sig : Signature) : Bool :=
  sig.v == 0

/-- The validator set argument of a submission: addresses paired positionally
with powers, the set's nonce, and the relaying reward fields
(spec section 3, and the `valset` object of the test, `app.go` 1087-1093). -/
structure ValsetArgs where
  validators : List Nat
  powers : List Nat
  valsetNonce : Nat
  rewardAmount : Nat
  rewardToken : Nat
deriving DecidableEq

/-- A logic call artifact (spec sections 3 and 4.6; `logicCallArgs` of the
test, `app.go` 996-1006). -/
structure LogicCallArgs where
  transferAmounts : List Nat
  transferTokenContracts : List Nat
  feeAmounts : List Nat
  feeTokenContracts : List Nat
  logicContractAddress : Nat
  payload : List Nat
  timeOut : Nat
  invalidationId : Nat
  invalidationNonce : Nat
deriving DecidableEq

/-- An outgoing transaction batch artifact (spec sections 3 and 4.5). -/
structure BatchArgs where
  amounts : List Nat
  destinations : List Nat
  fees : List Nat
  batchNonce : Nat
  tokenContract : Nat
  batchTimeout : Nat
deriving DecidableEq

/-- The error taxonomy of the external contract (spec section 7 and the
revert reasons asserted by the test suite, `app.go` 1127-1175). -/
inductive GravityError where
  | malformedCurrentValidatorSet
  | incorrectCheckpoint
  | invalidSignature
  | insufficientPower (havePower needPower : Nat)
  | invalidLogicCallNonce (newNonce currentNonce : Nat)
  | logicCallTimedOut
deriving DecidableEq

/-! ## Threshold verifier (spec section 4.2) -/

/-- Positional pairing of a validator address, its power, and the submitted
signature at the same index (spec: "a signature list aligned 1:1 with the
validator-set address order"). -/
def zip3 : List Nat → List Nat → List Signature → List (Nat × Nat × Signature)
  | a :: as, p :: ps, s :: ss => (a, p, s) :: zip3 as ps ss
  | _, _, _ => []

/-- Modelled from the spec (section 4.2 algorithm): walk the aligned triples;
an absent signature is skipped without contributing power; a non-absent
signature must recover to the paired validator address, else
`InvalidSignature`; the powers of the valid non-absent signatures are summed.
`recover` abstracts ECDSA public-key recovery from a digest. -/
def sumValidPower (recover : List Nat → Signature → Nat) (theHash : List Nat) :
    List (Nat × Nat × Signature) → Except GravityError Nat
  | [] => .ok 0
  | (addr, power, sig) :: rest =>
    if sig.isAbsent then
      sumValidPower recover theHash rest
    else if recover theHash sig = addr then
      match sumValidPower recover theHash rest with
      | .ok p => .ok (power + p)
      | .error e => .error e
    else
      .error .invalidSignature

/-- Modelled from the spec (section 4.2): accept iff the summed power of the
valid, non-absent signatures reaches the quorum threshold; otherwise fail
with `InsufficientPower(have, need)` carrying both values. -/
def checkValidatorSignatures (recover : List Nat → Signature → Nat)
    (validators powers : List Nat) (sigs : List Signature)
    (theHash : List Nat) (powerThreshold : Nat) : Except GravityError Unit :=
  match sumValidPower recover theHash (zip3 validators powers sigs) with
  | .error e => .error e
  | .ok cumulativePower =>
    if powerThreshold ≤ cumulativePower then
      .ok ()
    else
      .error (.insufficientPower cumulativePower powerThreshold)

/-- The fixed total to which validator powers are normalized
(spec section 3: "powers are non-negative integers normalized to a fixed
total (e.g., 2^32−1)"). -/
def normalizedTotalPower : Nat := 2 ^ 32 - 1

/-- Modelled from the spec (section 4.2): the quorum threshold is two-thirds
of the total normalized power, rounded down. -/
def quorumThreshold (totalPower : Nat) : Nat :=
  2 * totalPower / 3

/-! ## Checkpoint codec (spec sections 4.1 and 6)

A checkpoint is the collision-resistant hash of a fixed-layout encoding of
gravityId, an artifact-type tag and the artifact fields.  The hash itself
(keccak256) is outside a shallow embedding; since the spec only relies on it
being deterministic and collision-resistant, the checkpoint is modelled as
the encoded word sequence itself (an injective stand-in for the digest).
Dynamic arrays carry an explicit length prefix (spec section 6: "arrays
encoded with explicit length prefix"). -/

/-- Length-prefixed encoding of a word array. -/
def encodeWords (xs : List Nat) : List Nat :=
  xs.length :: xs

/-- Artifact-type tag of a validator-set checkpoint (the bytes32 constant
"checkpoint", modelled as a distinct word). -/
def valsetMethodName : Nat := 1

/-- Artifact-type tag of a transaction-batch checkpoint (the bytes32
constant "transactionBatch", modelled as a distinct word). -/
def batchMethodName : Nat := 2

/-- Artifact-type tag of a logic-call checkpoint (the bytes32 constant
"logicCall", modelled as a distinct word; `app.go` 992-994). -/
def logicCallMethodName : Nat := 3

/-- Modelled from the spec: the valset checkpoint encodes the gravityId
domain tag, the artifact tag, then the valset fields in fixed order. -/
def makeValsetCheckpoint (gravityId : Nat) (valset : ValsetArgs) : List Nat :=
  [gravityId, valsetMethodName, valset.valsetNonce]
    ++ encodeWords valset.validators
    ++ encodeWords valset.powers
    ++ [valset.rewardAmount, valset.rewardToken]

/-- Modelled from the spec: the logic-call checkpoint encodes the gravityId
domain tag, the artifact tag, then the call fields in the fixed order listed
in the test's digest computation (`app.go` 1009-1036). -/
def makeLogicCallCheckpoint (gravityId : Nat) (args : LogicCallArgs) : List Nat :=
  [gravityId, logicCallMethodName]
    ++ encodeWords args.transferAmounts
    ++ encodeWords args.transferTokenContracts
    ++ encodeWords args.feeAmounts
    ++ encodeWords args.feeTokenContracts
    ++ [args.logicContractAddress]
    ++ encodeWords args.payload
    ++ [args.timeOut, args.invalidationId, args.invalidationNonce]

/-- Modelled from the spec: the batch checkpoint encodes the gravityId
domain tag, the artifact tag, then the batch fields in fixed order. -/
def makeBatchCheckpoint (gravityId : Nat) (batch : BatchArgs) : List Nat :=
  [gravityId, batchMethodName]
    ++ encodeWords batch.amounts
    ++ encodeWords batch.destinations
    ++ encodeWords batch.fees
    ++ [batch.batchNonce, batch.tokenContract, batch.batchTimeout]

/-! ## External contract state and `submitLogicCall` (spec sections 4.2, 4.6) -/

/-- Modelled from the spec (section 3 "Ownership"): the external contract
holds the single currently accepted valset checkpoint, the per-scope
last-used invalidation nonce map, and (for the balance effects of a call)
its view of token balances, as `token contract → holder → amount`. -/
structure GravityContractState where
  lastValsetCheckpoint : List Nat
  invalidationMapping : Nat → Nat
  balances : Nat → Nat → Nat

/-- Move `amount` of `token` from `src` to `dst` in a balance map. -/
def transferToken (bal : Nat → Nat → Nat) (token src dst amount : Nat) :
    Nat → Nat → Nat :=
  fun t a =>
    if t = token then
      if src = dst then bal t a
      else if a = src then bal t a - amount
      else if a = dst then bal t a + amount
      else bal t a
    else bal t a

/-- Perform a list of `(amount, token)` transfers from `src` to `dst`. -/
def transferTokenList (src dst : Nat) (moves : List (Nat × Nat))
    (bal : Nat → Nat → Nat) : Nat → Nat → Nat :=
  match moves with
  | [] => bal
  | (amount, token) :: rest =>
    transferTokenList src dst rest (transferToken bal token src dst amount)

/-- Modelled from the spec (sections 4.2, 4.5, 4.6 and the error taxonomy of
section 7): the external contract's `submitLogicCall`.
Checks, in order:
1. the invalidation nonce is strictly greater than the last recorded nonce
   for the call's invalidationId, else `InvalidLogicCallNonce(new, current)`;
2. the current external-chain time does not exceed the call's timeout, else
   `LogicCallTimedOut`;
3. the supplied valset's arrays and the signature list pair up by length,
   else `MalformedCurrentValidatorSet` (before any signature work);
4. the supplied valset's checkpoint equals the one on file, else
   `IncorrectCheckpoint` (before signature verification);
5. the threshold verifier accepts the signatures over the call's checkpoint.
On acceptance it records the new `(invalidationId → invalidationNonce)` pair
before executing the payload, then transfers the call's funds to the logic
contract, executes the opaque payload (abstracted as a balance
transformation), and pays the fees to the caller. -/
def submitLogicCall (recover : List Nat → Signature → Nat)
    (executePayload : (Nat → Nat → Nat) → (Nat → Nat → Nat))
    (gravityAddr gravityId powerThreshold currentTime caller : Nat)
    (st : GravityContractState) (valset : ValsetArgs) (sigs : List Signature)
    (args : LogicCallArgs) : Except GravityError GravityContractState :=
  if args.invalidationNonce ≤ st.invalidationMapping args.invalidationId then
    .error (.invalidLogicCallNonce args.invalidationNonce
      (st.invalidationMapping args.invalidationId))
  else if args.timeOut < currentTime then
    .error .logicCallTimedOut
  else if valset.validators.length ≠ valset.powers.length
      ∨ valset.validators.length ≠ sigs.length then
    .error .malformedCurrentValidatorSet
  else if makeValsetCheckpoint gravityId valset ≠ st.lastValsetCheckpoint then
    .error .incorrectCheckpoint
  else
    match checkValidatorSignatures recover valset.validators valset.powers sigs
        (makeLogicCallCheckpoint gravityId args) powerThreshold with
    | .error e => .error e
    | .ok _ =>
      .ok { lastValsetCheckpoint := st.lastValsetCheckpoint,
            invalidationMapping := fun id =>
              if id = args.invalidationId then args.invalidationNonce
              else st.invalidationMapping id,
            balances := transferTokenList gravityAddr caller
              (args.feeAmounts.zip args.feeTokenContracts)
              (executePayload
                (transferTokenList gravityAddr args.logicContractAddress
                  (args.transferAmounts.zip args.transferTokenContracts)
                  st.balances)) }

/-! ## Conformance scenario (`app.go` 890-1175)

A concrete instantiation of the model following the `submitLogicCall tests`
suite.  The suite's validator set uses `examplePowers()` (125 validators,
not part of the excerpt); a three-validator set is used instead, normalized
to the same total `2^32 − 1` and chosen so that the partial sums reproduce
the exact `InsufficientPower(2807621889, 2863311530)` values the suite
asserts: zeroing all but validator 0 leaves 2807621889 (below quorum),
keeping validators 0 and 1 leaves 2863311531 (barely above quorum). -/

/-- The model `ecrecover`: a signature carries its signer's address in `r`
(abstract stand-in for ECDSA recovery, used for concrete runs). -/
def modelRecover : List Nat → Signature → Nat :=
  fun _ sig => sig.r

/-- A valid model signature by the validator with address `addr`. -/
def signedBy (addr : Nat) : Signature :=
  { v := 27, r := addr, s := 1 }

/-- The gravityId domain tag of the scenario (bytes32 "foo" in the test,
modelled as a distinct word). -/
def scenarioGravityId : Nat := 100

/-- Scenario addresses: the Gravity bridge contract. -/
def gravityAddr : Nat := 1

/-- Scenario addresses: the SimpleLogicBatchMiddleware intermediary. -/
def logicBatchAddr : Nat := 2

/-- Scenario addresses: the TestLogicContract. -/
def logicContractAddr : Nat := 3

/-- Scenario addresses: the fixed recipient (signer 20 in the test). -/
def recipientAddr : Nat := 4

/-- Scenario addresses: the relayer submitting the call (the test's
`msg.sender`). -/
def relayerAddr : Nat := 5

/-- Scenario addresses: the TestERC20 token contract. -/
def tokenAddr : Nat := 6

/-- Scenario validator addresses. -/
def scenarioValidators : List Nat := [10, 11, 12]

/-- Scenario powers, normalized to total `2^32 − 1` and reproducing the
suite's threshold boundary sums. -/
def scenarioPowers : List Nat := [2807621889, 55689642, 1431655764]

/-- The scenario's current validator set (valsetNonce 0, no reward;
`app.go` 1087-1093). -/
def scenarioValset : ValsetArgs :=
  { validators := scenarioValidators, powers := scenarioPowers,
    valsetNonce := 0, rewardAmount := 0, rewardToken := 0 }

/-- The scenario logic call (`app.go` 996-1006): transfer 50 tokens to the
intermediary, 10 tokens of fees, far-future timeout, invalidationId keyed by
the token address, invalidationNonce 1. -/
def scenarioArgs : LogicCallArgs :=
  { transferAmounts := [50], transferTokenContracts := [tokenAddr],
    feeAmounts := [10], feeTokenContracts := [tokenAddr],
    logicContractAddress := logicBatchAddr, payload := [7],
    timeOut := 4766922941000, invalidationId := tokenAddr,
    invalidationNonce := 1 }

/-- All three validators sign the call's checkpoint. -/
def scenarioSigs : List Signature :=
  [signedBy 10, signedBy 11, signedBy 12]

/-- Zeroing the recovery component of the signature at position 1
(the test's `zeroedValidatorSig` option, `app.go` 1055-1062). -/
def scenarioSigsZeroed : List Signature :=
  [signedBy 10, { signedBy 11 with v := 0 }, signedBy 12]

/-- Zeroing every signature but validator 0's: total kept power 2807621889,
below quorum (the test's `notEnoughPower` option). -/
def scenarioSigsNotEnough : List Signature :=
  [signedBy 10, { signedBy 11 with v := 0 }, { signedBy 12 with v := 0 }]

/-- Zeroing one fewer signature: kept power 2863311531, barely above quorum
(the test's `barelyEnoughPower` option). -/
def scenarioSigsBarelyEnough : List Signature :=
  [signedBy 10, signedBy 11, { signedBy 12 with v := 0 }]

/-- The external-chain time at which the scenario submission arrives. -/
def scenarioTime : Nat := 1000

/-- Initial contract state: the scenario valset's checkpoint on file, no
invalidation nonce recorded yet, 1000 tokens locked in the bridge (the
test's `sendToCosmos`, `app.go` 950-955) and the relayer holding 9000. -/
def scenarioState : GravityContractState :=
  { lastValsetCheckpoint := makeValsetCheckpoint scenarioGravityId scenarioValset,
    invalidationMapping := fun _ => 0,
    balances := fun t a =>
      if t = tokenAddr then
        if a = gravityAddr then 1000
        else if a = relayerAddr then 9000
        else 0
      else 0 }

/-- Modelled from the spec: one transaction of the scenario payload.  Per
the test's description (`app.go` 961-966) each of the 10 transactions
transfers 5 coins from the intermediary to the logic contract and calls
`transferTokens`, moving 2+2 coins on to the recipient. -/
def scenarioPayloadStep (bal : Nat → Nat → Nat) : Nat → Nat → Nat :=
  transferToken (transferToken bal tokenAddr logicBatchAddr logicContractAddr 5)
    tokenAddr logicContractAddr recipientAddr 4

/-- Run `n` transactions of the scenario payload. -/
def runScenarioBatch : Nat → (Nat → Nat → Nat) → Nat → Nat → Nat
  | 0, bal => bal
  | n + 1, bal => runScenarioBatch n (scenarioPayloadStep bal)

/-- Modelled from the spec: the opaque payload of the scenario executes the
10-transaction batch through the intermediary (`app.go` 961-974). -/
def scenarioExecutePayload (bal : Nat → Nat → Nat) : Nat → Nat → Nat :=
  runScenarioBatch 10 bal

/-- The scenario submission, with configurable signatures and call
arguments. -/
def scenarioSubmit (sigs : List Signature) (valset : ValsetArgs)
    (args : LogicCallArgs) : Except GravityError GravityContractState :=
  submitLogicCall modelRecover scenarioExecutePayload gravityAddr
    scenarioGravityId (quorumThreshold normalizedTotalPower) scenarioTime
    relayerAddr scenarioState valset sigs args

/-- The balance of `addr` in `token` after a submission, `none` when the
submission reverted. -/
def balanceAfter (res : Except GravityError GravityContractState)
    (token addr : Nat) : Option Nat :=
  match res with
  | .ok st => some (st.balances token addr)
  | .error _ => none

/-- The error a submission reverted with, `none` when it succeeded. -/
def submitError (res : Except GravityError GravityContractState) :
    Option GravityError :=
  match res with
  | .ok _ => none
  | .error e => some e

/-- A second logic call in a different invalidation scope, with the same
(not incremented) invalidation nonce as the first call. -/
def scenarioSecondCall : LogicCallArgs :=
  { scenarioArgs with invalidationId := 50 }

/-- The scenario call followed, on the resulting state, by the second call
in its independent invalidation scope. -/
def scenarioChained : Except GravityError GravityContractState :=
  match scenarioSubmit scenarioSigs scenarioValset scenarioArgs with
  | .error e => .error e
  | .ok st =>
    submitLogicCall modelRecover scenarioExecutePayload gravityAddr
      scenarioGravityId (quorumThreshold normalizedTotalPower) scenarioTime
      relayerAddr st scenarioValset scenarioSigs scenarioSecondCall

/-! ## Helper lemmas -/

/-- Positional zipping of nonempty lists. -/
theorem zip3_cons (a q : Nat) (s : Signature) (as ps : List Nat)
    (ss : List Signature) :
    zip3 (a :: as) (q :: ps) (s :: ss) = (a, q, s) :: zip3 as ps ss := rfl

/-- Positional zipping distributes over appends of equal-length prefixes. -/
theorem zip3_append (va vb pa pb : List Nat) (sa sb : List Signature)
    (h1 : va.length = pa.length) (h2 : va.length = sa.length) :
    zip3 (va ++ vb) (pa ++ pb) (sa ++ sb) = zip3 va pa sa ++ zip3 vb pb sb := by
  induction va generalizing pa sa with
  | nil =>
    cases pa with
    | nil =>
      cases sa with
      | nil => rfl
      | cons s ss => simp at h2
    | cons p ps => simp at h1
  | cons v vs ih =>
    cases pa with
    | nil => simp at h1
    | cons p ps =>
      cases sa with
      | nil => simp at h2
      | cons s ss =>
        simp only [List.cons_append, zip3, List.append_eq]
        rw [ih ps ss (by simpa using h1) (by simpa using h2)]

/-- Turning an absent signature into a valid non-absent one adds exactly the
corresponding power to a successfully computed power sum. -/
theorem sumValidPower_absent_to_valid (recover : List Nat → Signature → Nat)
    (theHash : List Nat) (pre post : List (Nat × Nat × Signature))
    (addr power : Nat) (sig sig' : Signature) (p : Nat)
    (habs : sig.isAbsent = true) (habs' : sig'.isAbsent = false)
    (hrec : recover theHash sig' = addr)
    (hsum : sumValidPower recover theHash (pre ++ (addr, power, sig) :: post)
      = .ok p) :
    sumValidPower recover theHash (pre ++ (addr, power, sig') :: post)
      = .ok (p + power) := by
  induction pre generalizing p with
  | nil =>
    simp only [List.nil_append, sumValidPower, habs, if_true] at hsum
    simp only [List.nil_append, sumValidPower, habs', hrec, if_pos, if_false,
      Bool.false_eq_true, if_neg, hsum]
    rw [Nat.add_comm]
  | cons head tail ih =>
    obtain ⟨a, q, s⟩ := head
    by_cases hs : s.isAbsent = true
    · simp only [List.cons_append, sumValidPower, hs, if_true] at hsum ⊢
      exact ih p hsum
    · rw [Bool.not_eq_true] at hs
      by_cases hr : recover theHash s = a
      · simp only [List.cons_append, sumValidPower, hs, Bool.false_eq_true,
          if_false, hr, if_true, List.append_eq] at hsum ⊢
        cases htail : sumValidPower recover theHash
            (tail ++ (addr, power, sig) :: post) with
        | error e => rw [htail] at hsum; simp at hsum
        | ok p0 =>
          rw [htail] at hsum
          simp only [Except.ok.injEq] at hsum
          rw [ih p0 htail]
          simp only [Except.ok.injEq]
          omega
      · simp only [List.cons_append, sumValidPower, hs, Bool.false_eq_true,
          if_false, hr, if_true, List.append_eq] at hsum
        simp at hsum

/-! ## Claims -/

/-- C10: for every module account name registered in the `maccPerms`
permission table, `BlockedAddrs` marks that account as blocked exactly when
it is not a member of the allowed-receiving set, and the distribution module
account is the unique unblocked one. -/
theorem C10_blocked_iff_not_allowed :
    ∀ acc ∈ maccPermsNames,
      (acc, ! allowedReceivingModAcc.contains acc) ∈ blockedAddrs ∧
      ((acc, false) ∈ blockedAddrs ↔ acc = "distribution") ∧
      ((acc, true) ∈ blockedAddrs ↔ acc ≠ "distribution") := by
  decide

/-- Witness for C10 at the gravity and distribution module accounts. -/
theorem C10_blocked_iff_not_allowed_witness :
    (("gravity", ! allowedReceivingModAcc.contains "gravity") ∈ blockedAddrs ∧
      (("gravity", false) ∈ blockedAddrs ↔ "gravity" = "distribution") ∧
      (("gravity", true) ∈ blockedAddrs ↔ "gravity" ≠ "distribution")) ∧
    (("distribution", false) ∈ blockedAddrs ↔ "distribution" = "distribution") :=
  ⟨C10_blocked_iff_not_allowed "gravity" (by decide),
   (C10_blocked_iff_not_allowed "distribution" (by decide)).2.1⟩

/-- C1: when every non-absent signature is valid (the power sum computes to
`cumulativePower`), the threshold verifier accepts iff the sum reaches the
quorum threshold of two-thirds of total normalized power rounded down, and
otherwise fails with `InsufficientPower` carrying the sum and the threshold;
the threshold of the `2^32 − 1` normalized total is 2863311530, and in the
conformance scenario zeroing down to 2807621889 of kept power fails with
exactly `InsufficientPower(2807621889, 2863311530)` while zeroing one fewer
signature succeeds. -/
theorem C1_threshold_accept_iff_quorum (recover : List Nat → Signature → Nat)
    (validators powers : List Nat) (sigs : List Signature) (theHash : List Nat)
    (cumulativePower : Nat)
    (hsum : sumValidPower recover theHash (zip3 validators powers sigs)
      = .ok cumulativePower) :
    (checkValidatorSignatures recover validators powers sigs theHash
        (quorumThreshold normalizedTotalPower) = .ok ()
      ↔ quorumThreshold normalizedTotalPower ≤ cumulativePower) ∧
    (cumulativePower < quorumThreshold normalizedTotalPower →
      checkValidatorSignatures recover validators powers sigs theHash
        (quorumThreshold normalizedTotalPower)
        = .error (.insufficientPower cumulativePower
            (quorumThreshold normalizedTotalPower))) ∧
    quorumThreshold normalizedTotalPower = 2863311530 ∧
    normalizedTotalPower = 2 ^ 32 - 1 ∧
    scenarioPowers.sum = normalizedTotalPower ∧
    submitError (scenarioSubmit scenarioSigsNotEnough scenarioValset scenarioArgs)
      = some (.insufficientPower 2807621889 2863311530) ∧
    submitError (scenarioSubmit scenarioSigsBarelyEnough scenarioValset scenarioArgs)
      = none := by
  have hck : checkValidatorSignatures recover validators powers sigs theHash
      (quorumThreshold normalizedTotalPower)
      = if quorumThreshold normalizedTotalPower ≤ cumulativePower then .ok ()
        else .error (.insufficientPower cumulativePower
          (quorumThreshold normalizedTotalPower)) := by
    unfold checkValidatorSignatures
    rw [hsum]
  refine ⟨?_, ?_, by decide, rfl, by decide, by decide, by decide⟩
  · rw [hck]
    split_ifs with h
    · simp [h]
    · simp [h]
  · intro hlt
    rw [hck, if_neg (by omega)]

/-- Witness for C1 at the conformance scenario's below-quorum signature
list. -/
theorem C1_threshold_accept_iff_quorum_witness :
    checkValidatorSignatures modelRecover scenarioValidators scenarioPowers
      scenarioSigsNotEnough
      (makeLogicCallCheckpoint scenarioGravityId scenarioArgs)
      (quorumThreshold normalizedTotalPower)
      = .error (.insufficientPower 2807621889
          (quorumThreshold normalizedTotalPower)) :=
  (C1_threshold_accept_iff_quorum modelRecover scenarioValidators
    scenarioPowers scenarioSigsNotEnough
    (makeLogicCallCheckpoint scenarioGravityId scenarioArgs)
    2807621889 (by rfl)).2.1 (by decide)

/-- C2: checkpoint encoding is deterministic for every artifact kind —
identical logical content (field-by-field equal valsets, batches, or logic
calls, however constructed) yields identical checkpoints over the fixed
field order. -/
theorem C2_checkpoint_deterministic :
    (∀ (gid : Nat) (a b : ValsetArgs),
      a.validators = b.validators → a.powers = b.powers →
      a.valsetNonce = b.valsetNonce → a.rewardAmount = b.rewardAmount →
      a.rewardToken = b.rewardToken →
      makeValsetCheckpoint gid a = makeValsetCheckpoint gid b) ∧
    (∀ (gid : Nat) (a b : BatchArgs),
      a.amounts = b.amounts → a.destinations = b.destinations →
      a.fees = b.fees → a.batchNonce = b.batchNonce →
      a.tokenContract = b.tokenContract → a.batchTimeout = b.batchTimeout →
      makeBatchCheckpoint gid a = makeBatchCheckpoint gid b) ∧
    (∀ (gid : Nat) (a b : LogicCallArgs),
      a.transferAmounts = b.transferAmounts →
      a.transferTokenContracts = b.transferTokenContracts →
      a.feeAmounts = b.feeAmounts →
      a.feeTokenContracts = b.feeTokenContracts →
      a.logicContractAddress = b.logicContractAddress →
      a.payload = b.payload → a.timeOut = b.timeOut →
      a.invalidationId = b.invalidationId →
      a.invalidationNonce = b.invalidationNonce →
      makeLogicCallCheckpoint gid a = makeLogicCallCheckpoint gid b) := by
  refine ⟨?_, ?_, ?_⟩ <;>
  · intro gid a b
    intros
    simp only [makeValsetCheckpoint, makeBatchCheckpoint,
      makeLogicCallCheckpoint, encodeWords, *]

/-- Witness for C2: two differently-constructed but logically identical
valsets encode to the same checkpoint. -/
theorem C2_checkpoint_deterministic_witness :
    makeValsetCheckpoint 5
      { validators := [8, 9], powers := [3, 4], valsetNonce := 2,
        rewardAmount := 0, rewardToken := 0 }
      = makeValsetCheckpoint 5
      { validators := [8] ++ [9], powers := 3 :: [4], valsetNonce := 1 + 1,
        rewardAmount := 0, rewardToken := 0 } :=
  C2_checkpoint_deterministic.1 5 _ _ rfl rfl rfl rfl rfl

/-- C3: a position holding the absent sentinel is skipped by the verifier:
its validator's power is excluded from the sum and no `InvalidSignature` is
raised for it — the power sum over the list with the absent entry equals the
sum over the list without that entry — and the conformance submission with a
zeroed signature still succeeds. -/
theorem C3_absent_signature_skipped (recover : List Nat → Signature → Nat)
    (theHash : List Nat) (pre post : List (Nat × Nat × Signature))
    (addr power : Nat) (sig : Signature) (habs : sig.isAbsent = true) :
    sumValidPower recover theHash (pre ++ (addr, power, sig) :: post)
      = sumValidPower recover theHash (pre ++ post) ∧
    submitError (scenarioSubmit scenarioSigsZeroed scenarioValset scenarioArgs)
      = none := by
  refine ⟨?_, by decide⟩
  induction pre with
  | nil => simp [sumValidPower, habs]
  | cons head tail ih =>
    obtain ⟨a, q, s⟩ := head
    simp only [List.cons_append, sumValidPower, List.append_eq]
    rw [ih]

/-- Witness for C3 at a concrete three-entry list with an absent middle
signature. -/
theorem C3_absent_signature_skipped_witness :
    (sumValidPower modelRecover []
        ([(10, 5, signedBy 10)]
          ++ (11, 7, Signature.mk 0 11 1) :: [(12, 9, signedBy 12)])
      = sumValidPower modelRecover []
        ([(10, 5, signedBy 10)] ++ [(12, 9, signedBy 12)])) ∧
    submitError (scenarioSubmit scenarioSigsZeroed scenarioValset scenarioArgs)
      = none :=
  C3_absent_signature_skipped modelRecover [] [(10, 5, signedBy 10)]
    [(12, 9, signedBy 12)] 11 7 (Signature.mk 0 11 1) (by decide)

/-- C4: a submission whose supplied validator set pairs its addresses and
powers arrays at different lengths fails with
`MalformedCurrentValidatorSet`; the failure is independent of the recovery
function, the signatures and the on-file checkpoint (so it happens before
any signature recovery or power-summing work), and the conformance scenario
with one power removed fails exactly this way. -/
theorem C4_malformed_valset_fails_fast (recover : List Nat → Signature → Nat)
    (executePayload : (Nat → Nat → Nat) → (Nat → Nat → Nat))
    (gAddr gid thr currentTime caller : Nat) (st : GravityContractState)
    (valset : ValsetArgs) (sigs : List Signature) (args : LogicCallArgs)
    (hnonce : st.invalidationMapping args.invalidationId < args.invalidationNonce)
    (htime : currentTime ≤ args.timeOut)
    (hlen : valset.validators.length ≠ valset.powers.length) :
    submitLogicCall recover executePayload gAddr gid thr currentTime caller
      st valset sigs args = .error .malformedCurrentValidatorSet ∧
    submitError (scenarioSubmit scenarioSigs
      { scenarioValset with powers := [2807621889, 55689642] } scenarioArgs)
      = some .malformedCurrentValidatorSet := by
  refine ⟨?_, by decide⟩
  unfold submitLogicCall
  rw [if_neg (by omega), if_neg (by omega), if_pos (Or.inl hlen)]

/-- Witness for C4 at the conformance scenario with the last power
removed. -/
theorem C4_malformed_valset_fails_fast_witness :
    (submitLogicCall modelRecover scenarioExecutePayload gravityAddr
      scenarioGravityId (quorumThreshold normalizedTotalPower) scenarioTime
      relayerAddr scenarioState
      { scenarioValset with powers := [2807621889, 55689642] } scenarioSigs
      scenarioArgs = .error .malformedCurrentValidatorSet) ∧
    submitError (scenarioSubmit scenarioSigs
      { scenarioValset with powers := [2807621889, 55689642] } scenarioArgs)
      = some .malformedCurrentValidatorSet :=
  C4_malformed_valset_fails_fast modelRecover scenarioExecutePayload
    gravityAddr scenarioGravityId (quorumThreshold normalizedTotalPower)
    scenarioTime relayerAddr scenarioState
    { scenarioValset with powers := [2807621889, 55689642] } scenarioSigs
    scenarioArgs (by decide) (by decide) (by decide)

/-- C5: a well-paired submission whose supplied validator set's checkpoint
differs from the checkpoint on file fails with `IncorrectCheckpoint`,
independently of the recovery function and the signatures (so before
signature verification); as the submission function is pure, the rejection
is final for that submission.  The conformance scenario with valsetNonce 420
fails exactly this way. -/
theorem C5_incorrect_checkpoint_fails_before_sigs
    (recover : List Nat → Signature → Nat)
    (executePayload : (Nat → Nat → Nat) → (Nat → Nat → Nat))
    (gAddr gid thr currentTime caller : Nat) (st : GravityContractState)
    (valset : ValsetArgs) (sigs : List Signature) (args : LogicCallArgs)
    (hnonce : st.invalidationMapping args.invalidationId < args.invalidationNonce)
    (htime : currentTime ≤ args.timeOut)
    (hlenp : valset.validators.length = valset.powers.length)
    (hlens : valset.validators.length = sigs.length)
    (hck : makeValsetCheckpoint gid valset ≠ st.lastValsetCheckpoint) :
    submitLogicCall recover executePayload gAddr gid thr currentTime caller
      st valset sigs args = .error .incorrectCheckpoint ∧
    submitError (scenarioSubmit scenarioSigs
      { scenarioValset with valsetNonce := 420 } scenarioArgs)
      = some .incorrectCheckpoint := by
  refine ⟨?_, by decide⟩
  unfold submitLogicCall
  rw [if_neg (by omega), if_neg (by omega), if_neg (by omega), if_pos hck]

/-- Witness for C5 at the conformance scenario with the wrong valset
nonce. -/
theorem C5_incorrect_checkpoint_fails_before_sigs_witness :
    (submitLogicCall modelRecover scenarioExecutePayload gravityAddr
      scenarioGravityId (quorumThreshold normalizedTotalPower) scenarioTime
      relayerAddr scenarioState { scenarioValset with valsetNonce := 420 }
      scenarioSigs scenarioArgs = .error .incorrectCheckpoint) ∧
    submitError (scenarioSubmit scenarioSigs
      { scenarioValset with valsetNonce := 420 } scenarioArgs)
      = some .incorrectCheckpoint :=
  C5_incorrect_checkpoint_fails_before_sigs modelRecover
    scenarioExecutePayload gravityAddr scenarioGravityId
    (quorumThreshold normalizedTotalPower) scenarioTime relayerAddr
    scenarioState { scenarioValset with valsetNonce := 420 } scenarioSigs
    scenarioArgs (by decide) (by decide) (by decide) (by decide) (by decide)

/-- C6: a logic call is accepted only if its invalidationNonce strictly
exceeds the last recorded nonce for its invalidationId; a nonce less than or
equal to the recorded one is rejected with `InvalidLogicCallNonce` carrying
the submitted and recorded nonces — in the conformance scenario with
invalidationNonce 0 over a recorded 0, exactly the pair (0, 0) — and a
successful call leaves every other invalidationId's recorded nonce
untouched, so calls in different scopes never block each other: the chained
scenario run of two same-nonce calls in different scopes succeeds. -/
theorem C6_invalidation_nonce_strictness :
    (∀ (recover : List Nat → Signature → Nat)
       (executePayload : (Nat → Nat → Nat) → (Nat → Nat → Nat))
       (gAddr gid thr currentTime caller : Nat) (st : GravityContractState)
       (valset : ValsetArgs) (sigs : List Signature) (args : LogicCallArgs)
       (st2 : GravityContractState),
      submitLogicCall recover executePayload gAddr gid thr currentTime caller
        st valset sigs args = .ok st2 →
      st.invalidationMapping args.invalidationId < args.invalidationNonce) ∧
    (∀ (recover : List Nat → Signature → Nat)
       (executePayload : (Nat → Nat → Nat) → (Nat → Nat → Nat))
       (gAddr gid thr currentTime caller : Nat) (st : GravityContractState)
       (valset : ValsetArgs) (sigs : List Signature) (args : LogicCallArgs),
      args.invalidationNonce ≤ st.invalidationMapping args.invalidationId →
      submitLogicCall recover executePayload gAddr gid thr currentTime caller
        st valset sigs args
        = .error (.invalidLogicCallNonce args.invalidationNonce
            (st.invalidationMapping args.invalidationId))) ∧
    (∀ (recover : List Nat → Signature → Nat)
       (executePayload : (Nat → Nat → Nat) → (Nat → Nat → Nat))
       (gAddr gid thr currentTime caller : Nat) (st : GravityContractState)
       (valset : ValsetArgs) (sigs : List Signature) (args : LogicCallArgs)
       (st2 : GravityContractState),
      submitLogicCall recover executePayload gAddr gid thr currentTime caller
        st valset sigs args = .ok st2 →
      ∀ id2, id2 ≠ args.invalidationId →
        st2.invalidationMapping id2 = st.invalidationMapping id2) ∧
    submitError (scenarioSubmit scenarioSigs scenarioValset
      { scenarioArgs with invalidationNonce := 0 })
      = some (.invalidLogicCallNonce 0 0) ∧
    submitError scenarioChained = none := by
  refine ⟨?_, ?_, ?_, by decide, by decide⟩
  · intro recover ep gAddr gid thr ct caller st valset sigs args st2 hok
    by_contra hle
    rw [Nat.not_lt] at hle
    unfold submitLogicCall at hok
    rw [if_pos hle] at hok
    exact Except.noConfusion hok
  · intro recover ep gAddr gid thr ct caller st valset sigs args hle
    unfold submitLogicCall
    rw [if_pos hle]
  · intro recover ep gAddr gid thr ct caller st valset sigs args st2 hok id2 hne
    unfold submitLogicCall at hok
    split at hok
    · exact Except.noConfusion hok
    · split at hok
      · exact Except.noConfusion hok
      · split at hok
        · exact Except.noConfusion hok
        · split at hok
          · exact Except.noConfusion hok
          · split at hok
            · exact Except.noConfusion hok
            · cases hok
              simp [hne]

/-- Witness for C6 at the conformance scenario with invalidationNonce 0. -/
theorem C6_invalidation_nonce_strictness_witness :
    submitLogicCall modelRecover scenarioExecutePayload gravityAddr
      scenarioGravityId (quorumThreshold normalizedTotalPower) scenarioTime
      relayerAddr scenarioState scenarioValset scenarioSigs
      { scenarioArgs with invalidationNonce := 0 }
      = .error (.invalidLogicCallNonce 0 0) :=
  C6_invalidation_nonce_strictness.2.1 modelRecover scenarioExecutePayload
    gravityAddr scenarioGravityId (quorumThreshold normalizedTotalPower)
    scenarioTime relayerAddr scenarioState scenarioValset scenarioSigs
    { scenarioArgs with invalidationNonce := 0 } (by decide)

/-- C7: a submission arriving after its artifact's timeout is rejected with
`LogicCallTimedOut` and never yields an executed (accepted) state; the
conformance scenario with timeOut 0 fails exactly this way. -/
theorem C7_timeout_enforced (recover : List Nat → Signature → Nat)
    (executePayload : (Nat → Nat → Nat) → (Nat → Nat → Nat))
    (gAddr gid thr currentTime caller : Nat) (st : GravityContractState)
    (valset : ValsetArgs) (sigs : List Signature) (args : LogicCallArgs)
    (hnonce : st.invalidationMapping args.invalidationId < args.invalidationNonce)
    (htime : args.timeOut < currentTime) :
    submitLogicCall recover executePayload gAddr gid thr currentTime caller
      st valset sigs args = .error .logicCallTimedOut ∧
    (∀ st2, submitLogicCall recover executePayload gAddr gid thr currentTime
      caller st valset sigs args ≠ .ok st2) ∧
    submitError (scenarioSubmit scenarioSigs scenarioValset
      { scenarioArgs with timeOut := 0 }) = some .logicCallTimedOut := by
  have h : submitLogicCall recover executePayload gAddr gid thr currentTime
      caller st valset sigs args = .error .logicCallTimedOut := by
    unfold submitLogicCall
    rw [if_neg (by omega), if_pos htime]
  refine ⟨h, ?_, by decide⟩
  intro st2 hok
  rw [h] at hok
  exact Except.noConfusion hok

/-- Witness for C7 at the conformance scenario with timeOut 0. -/
theorem C7_timeout_enforced_witness :
    (submitLogicCall modelRecover scenarioExecutePayload gravityAddr
      scenarioGravityId (quorumThreshold normalizedTotalPower) scenarioTime
      relayerAddr scenarioState scenarioValset scenarioSigs
      { scenarioArgs with timeOut := 0 } = .error .logicCallTimedOut) ∧
    (∀ st2, submitLogicCall modelRecover scenarioExecutePayload gravityAddr
      scenarioGravityId (quorumThreshold normalizedTotalPower) scenarioTime
      relayerAddr scenarioState scenarioValset scenarioSigs
      { scenarioArgs with timeOut := 0 } ≠ .ok st2) ∧
    submitError (scenarioSubmit scenarioSigs scenarioValset
      { scenarioArgs with timeOut := 0 }) = some .logicCallTimedOut :=
  C7_timeout_enforced modelRecover scenarioExecutePayload gravityAddr
    scenarioGravityId (quorumThreshold normalizedTotalPower) scenarioTime
    relayerAddr scenarioState scenarioValset scenarioSigs
    { scenarioArgs with timeOut := 0 } (by decide) (by decide)

/-- C8: for a fixed validator set and checkpoint, turning an absent sentinel
signature into a valid non-absent signature of the corresponding validator
raises the accepted power sum from p to p + power (so it never decreases),
and any quorum threshold already met by p is still met afterwards: the
verifier still accepts. -/
theorem C8_threshold_monotone (recover : List Nat → Signature → Nat)
    (theHash : List Nat) (vpre vpost ppre ppost : List Nat)
    (spre spost : List Signature) (addr power p : Nat) (sig sig' : Signature)
    (hl1 : vpre.length = ppre.length) (hl2 : vpre.length = spre.length)
    (habs : sig.isAbsent = true) (habs' : sig'.isAbsent = false)
    (hrec : recover theHash sig' = addr)
    (hsum : sumValidPower recover theHash
      (zip3 (vpre ++ addr :: vpost) (ppre ++ power :: ppost)
        (spre ++ sig :: spost)) = .ok p) :
    sumValidPower recover theHash
      (zip3 (vpre ++ addr :: vpost) (ppre ++ power :: ppost)
        (spre ++ sig' :: spost)) = .ok (p + power) ∧
    p ≤ p + power ∧
    ∀ thr, thr ≤ p →
      checkValidatorSignatures recover (vpre ++ addr :: vpost)
        (ppre ++ power :: ppost) (spre ++ sig' :: spost) theHash thr
        = .ok () := by
  rw [zip3_append vpre (addr :: vpost) ppre (power :: ppost) spre
    (sig :: spost) hl1 hl2, zip3_cons] at hsum
  have hmain := sumValidPower_absent_to_valid recover theHash
    (zip3 vpre ppre spre) (zip3 vpost ppost spost) addr power sig sig' p
    habs habs' hrec hsum
  have hnew : sumValidPower recover theHash
      (zip3 (vpre ++ addr :: vpost) (ppre ++ power :: ppost)
        (spre ++ sig' :: spost)) = .ok (p + power) := by
    rw [zip3_append vpre (addr :: vpost) ppre (power :: ppost) spre
      (sig' :: spost) hl1 hl2, zip3_cons]
    exact hmain
  refine ⟨hnew, Nat.le_add_right p power, ?_⟩
  intro thr hthr
  unfold checkValidatorSignatures
  rw [hnew]
  show (if thr ≤ p + power then (Except.ok () : Except GravityError Unit)
    else .error (.insufficientPower (p + power) thr)) = .ok ()
  rw [if_pos (by omega)]

/-- Witness for C8: validator 11's absent signature is replaced by a valid
one, raising the kept power from 2807621889 by 55689642. -/
theorem C8_threshold_monotone_witness :
    (sumValidPower modelRecover
        (makeLogicCallCheckpoint scenarioGravityId scenarioArgs)
        (zip3 ([10] ++ 11 :: [12]) ([2807621889] ++ 55689642 :: [1431655764])
          ([signedBy 10] ++ signedBy 11 :: [Signature.mk 0 12 1]))
      = .ok (2807621889 + 55689642)) ∧
    2807621889 ≤ 2807621889 + 55689642 ∧
    (∀ thr, thr ≤ 2807621889 →
      checkValidatorSignatures modelRecover ([10] ++ 11 :: [12])
        ([2807621889] ++ 55689642 :: [1431655764])
        ([signedBy 10] ++ signedBy 11 :: [Signature.mk 0 12 1])
        (makeLogicCallCheckpoint scenarioGravityId scenarioArgs) thr
        = .ok ()) :=
  C8_threshold_monotone modelRecover
    (makeLogicCallCheckpoint scenarioGravityId scenarioArgs)
    [10] [12] [2807621889] [1431655764] [signedBy 10] [Signature.mk 0 12 1]
    11 55689642 2807621889 (Signature.mk 0 11 1) (signedBy 11)
    rfl rfl rfl rfl rfl (by rfl)

/-- C9: the conformance Scenario A run succeeds and produces exactly the
final balances of the test suite: recipient 40, bridge contract 940,
intermediary logic contract 10, and the relayer reimbursed the 10 units of
fees on top of its starting 9000. -/
theorem C9_scenario_a_balances :
    submitError (scenarioSubmit scenarioSigs scenarioValset scenarioArgs)
      = none ∧
    balanceAfter (scenarioSubmit scenarioSigs scenarioValset scenarioArgs)
      tokenAddr recipientAddr = some 40 ∧
    balanceAfter (scenarioSubmit scenarioSigs scenarioValset scenarioArgs)
      tokenAddr gravityAddr = some 940 ∧
    balanceAfter (scenarioSubmit scenarioSigs scenarioValset scenarioArgs)
      tokenAddr logicContractAddr = some 10 ∧
    balanceAfter (scenarioSubmit scenarioSigs scenarioValset scenarioArgs)
      tokenAddr relayerAddr = some 9010 ∧
    scenarioState.balances tokenAddr relayerAddr = 9000 ∧
    scenarioArgs.feeAmounts = [10] ∧
    scenarioArgs.invalidationNonce = 1 ∧
    scenarioState.invalidationMapping scenarioArgs.invalidationId = 0 := by
  decide

end GravityBridge
